import Mathlib

/-!
Shallow embedding of the orchestration core of the `ai-avatar-lecturer`
repository, together with proofs of the frozen specification claims.

Modules embedded:
* `src/translate/translate.py` — `Translator.translate_text`,
  `Translator.smart_translate`, `Translator.detect_language`;
* `src/tts/enhanced_tts.py` — `EnhancedTTSGenerator.synthesize_speech`
  and its engine-preference tables;
* `src/clone/clone.py` — `VoiceCloner.extract_speaker_embedding`;
* `src/backend/app.py` — `get_lecturer_files`,
  `get_or_create_lecturer_files`, and the four background job
  processors (`process_text_generation`, `process_audio_generation`,
  `process_custom_image_generation`, `process_image_audio_generation`)
  viewed as sequences of writes to the in-memory task record.

External ML library calls (model loading and inference, TTS engine
back-ends, speaker-embedding extraction, video synthesis) are modelled
as oracle parameters: each oracle returns either a success value or the
message of the exception it raises, which is exactly the interface the
orchestration code consumes.
-/

/-- Decidable equality for `Except`, used to evaluate the embedded
functions at concrete inputs. -/
instance {ε α : Type} [DecidableEq ε] [DecidableEq α] : DecidableEq (Except ε α) :=
  fun a b =>
    match a, b with
    | .ok x, .ok y =>
      if h : x = y then .isTrue (by rw [h]) else .isFalse (fun hc => h (Except.ok.inj hc))
    | .error x, .error y =>
      if h : x = y then .isTrue (by rw [h]) else .isFalse (fun hc => h (Except.error.inj hc))
    | .ok _, .error _ => .isFalse (fun hc => Except.noConfusion hc)
    | .error _, .ok _ => .isFalse (fun hc => Except.noConfusion hc)

namespace AvatarLecturer

/-! ## Translator (`src/translate/translate.py`) -/

/-- Python whitespace characters relevant to `str.strip()` on the
ASCII range (space, tab, newline, carriage return, vertical tab,
form feed). -/
def pyIsSpace (c : Char) : Bool :=
  c = ' ' || c = '\t' || c = '\n' || c = '\x0d' || c = '\x0b' || c = '\x0c'

/-- `not text.strip()` in Python: the string is empty or consists
only of whitespace characters. -/
def isBlank (text : String) : Bool :=
  text.toList.all pyIsSpace

/-- The keys of `Translator.model_configs` (`translate.py`, constructor). -/
def modelConfigKeys : List String :=
  ["hi_to_en", "en_to_hi",
   "mr_to_en", "en_to_mr",
   "bn_to_en", "en_to_bn",
   "ur_to_en", "en_to_ur",
   "auto_to_en",
   "indic_to_en", "en_to_indic"]

/-- The Indic languages routed to the multilingual fallback models
(the literal lists in `translate_text`). -/
def indicFallbackLangs : List String := ["ta", "te", "gu", "kn", "ml", "pa"]

/-- Suffix of the unsupported-pair error message (the Python code appends
the repr of `list(self.model_configs.keys())`). -/
def availableModelsSuffix : String := " not supported. Available models: ..."

/-- Model-key selection logic of `Translator.translate_text`
(`translate.py` lines 141–158): the `source_lang == "auto"` special
case, the direct-pair lookup, the two multilingual Indic fallbacks,
and the unsupported-pair `ValueError`. -/
def selectModelKey (source_lang target_lang : String) : Except String String :=
  let model_key :=
    if source_lang = "auto" then
      if target_lang = "en" then "auto_to_en" else "hi_to_en"
    else
      source_lang ++ "_to_" ++ target_lang
  if modelConfigKeys.contains model_key then
    .ok model_key
  else if source_lang = "en" && indicFallbackLangs.contains target_lang then
    .ok "en_to_indic"
  else if indicFallbackLangs.contains source_lang && target_lang = "en" then
    .ok "indic_to_en"
  else
    .error ("Translation from " ++ source_lang ++ " to " ++ target_lang ++
      availableModelsSuffix)

/-- Result dictionary of `Translator.translate_text`. The `model_used`
key is present only when a model actually ran (the whitespace-only early
return omits it). -/
structure TransResult where
  source_text : String
  translated_text : String
  source_lang : String
  target_lang : String
  model_used : Option String
  deriving Repr, DecidableEq

/-- `Translator.translate_text` (`translate.py` lines 113–202).
`runModel key text` is the oracle for "load model `key` and run
inference on `text`": `.ok` is the decoded translation, `.error` the
message of the exception raised by loading or generation. -/
def translate_text (text source_lang target_lang : String)
    (runModel : String → String → Except String String) :
    Except String TransResult :=
  if isBlank text then
    .ok ⟨text, "", source_lang, target_lang, none⟩
  else
    match selectModelKey source_lang target_lang with
    | .error e => .error e
    | .ok model_key =>
      match runModel model_key text with
      | .error e => .error e
      | .ok translated => .ok ⟨text, translated, source_lang, target_lang, some model_key⟩

/-- Result dictionary of `Translator.smart_translate`; the
`translation_method` tag distinguishes the three outcomes, and `error`
is present only in the ultimate fallback. -/
structure SmartResult where
  source_text : String
  translated_text : String
  source_lang : String
  target_lang : String
  model_used : Option String
  translation_method : String
  error : Option String
  deriving Repr, DecidableEq

/-- `Translator.smart_translate` (`translate.py` lines 327–390):
first the auto-detecting path through `translate_text`, then a direct
run of the `indic_to_en` model, and finally the identity fallback
tagged `fallback_no_translation`. Total: every exception is absorbed. -/
def smart_translate (text target_lang : String)
    (runModel : String → String → Except String String) : SmartResult :=
  match translate_text text "auto" target_lang runModel with
  | .ok r =>
    ⟨r.source_text, r.translated_text, r.source_lang, r.target_lang,
      r.model_used, "auto_multilingual", none⟩
  | .error _ =>
    match runModel "indic_to_en" text with
    | .ok translated =>
      ⟨text, translated, "indic", target_lang, some "indic_to_en",
        "indic_multilingual", none⟩
    | .error e =>
      ⟨text, text, "unknown", target_lang, some "none",
        "fallback_no_translation", some e⟩

/-- Devanagari block test of `detect_language`:
`'ऀ' <= char <= 'ॿ'`. -/
def isDevanagari (c : Char) : Bool :=
  0x900 ≤ c.toNat && c.toNat ≤ 0x97F

/-- Basic-Latin letter test of `detect_language`:
`char.isalpha() and ord(char) < 128`. -/
def isBasicLatinAlpha (c : Char) : Bool :=
  c.isAlpha && c.toNat < 128

/-- `Translator.detect_language` (`translate.py` lines 237–261):
count Devanagari characters against basic Latin letters and return
`"hi"` exactly when the former strictly dominate. -/
def detect_language (text : String) : String :=
  let counts := text.toList.foldl
    (fun (acc : Nat × Nat) c =>
      if isDevanagari c then (acc.1 + 1, acc.2)
      else if isBasicLatinAlpha c then (acc.1, acc.2 + 1)
      else acc)
    (0, 0)
  if counts.1 > counts.2 then "hi" else "en"

/-! ## Enhanced TTS (`src/tts/enhanced_tts.py`) -/

/-- `EnhancedTTSGenerator.coqui_languages`
(`enhanced_tts.py` lines 118–121). -/
def coquiLanguages : List String :=
  ["en", "es", "fr", "de", "it", "pt", "pl", "tr", "ru",
   "nl", "cs", "ar", "zh-cn", "hu", "ko", "ja", "hi"]

/-- The keys of `EnhancedTTSGenerator.gtts_languages`
(`enhanced_tts.py` lines 102–115). -/
def gttsLanguages : List String :=
  ["en", "hi", "bn", "gu", "kn", "ml", "mr", "ne", "pa", "ta", "te", "ur"]

/-- `EnhancedTTSGenerator.engine_preferences` with the
`.get(language, ['coqui', 'gtts', 'pyttsx3'])` default
(`enhanced_tts.py` lines 124–136 and 323). -/
def engine_preferences (language : String) : List String :=
  if language = "hi" then ["coqui", "gtts", "pyttsx3"]
  else if language = "gu" then ["gtts", "coqui", "pyttsx3"]
  else if language = "bn" then ["gtts", "coqui", "pyttsx3"]
  else if language = "kn" then ["gtts", "coqui", "pyttsx3"]
  else if language = "ml" then ["gtts", "coqui", "pyttsx3"]
  else if language = "mr" then ["gtts", "coqui", "pyttsx3"]
  else if language = "pa" then ["gtts", "coqui", "pyttsx3"]
  else if language = "ta" then ["gtts", "coqui", "pyttsx3"]
  else if language = "te" then ["gtts", "coqui", "pyttsx3"]
  else if language = "ur" then ["gtts", "coqui", "pyttsx3"]
  else if language = "en" then ["coqui", "gtts", "pyttsx3"]
  else ["coqui", "gtts", "pyttsx3"]

/-- Engine availability flags fixed at generator construction:
`self.coqui_tts is not None`, `self.gtts_available`,
`self.pyttsx3_available`. -/
structure EngineAvail where
  coqui : Bool
  gtts : Bool
  pyttsx3 : Bool
  deriving Repr, DecidableEq

/-- Engine order computed by `synthesize_speech`
(`enhanced_tts.py` lines 319–323). A supplied `prefer_engine` is put
first, followed by the *fixed* list `['coqui', 'gtts', 'pyttsx3']`
minus the preferred engine; the empty string is falsy in Python and
behaves like no preference. -/
def engineOrder (language : String) (prefer_engine : Option String) : List String :=
  match prefer_engine with
  | some p =>
    if p = "" then engine_preferences language
    else p :: (["coqui", "gtts", "pyttsx3"].filter (fun e => e ≠ p))
  | none => engine_preferences language

/-- The guard each branch of the dispatch `if/elif` chain places on an
engine before invoking it (`enhanced_tts.py` lines 329–339): coqui and
gtts require availability and language membership, pyttsx3 only
availability; any other engine name matches no branch. -/
def engineSupports (avail : EngineAvail) (language engine : String) : Bool :=
  if engine = "coqui" then avail.coqui && coquiLanguages.contains language
  else if engine = "gtts" then avail.gtts && gttsLanguages.contains language
  else if engine = "pyttsx3" then avail.pyttsx3
  else false

/-- The `for engine in engines` loop of `synthesize_speech`
(`enhanced_tts.py` lines 325–350), carrying `last_error`.
`engineRes engine` is the oracle for `synthesize_with_<engine>`:
`.ok` is the produced output path, `.error` the raised message. -/
def attemptEngines (avail : EngineAvail) (language : String)
    (engineRes : String → Except String String) :
    List String → Option String → Except String (String × String)
  | [], last_error =>
    match last_error with
    | some e => .error e
    | none => .error ("No suitable TTS engine available for language: " ++ language)
  | engine :: rest, last_error =>
    if engineSupports avail language engine then
      match engineRes engine with
      | .ok path => .ok (path, engine)
      | .error e => attemptEngines avail language engineRes rest (some e)
    else
      attemptEngines avail language engineRes rest last_error

/-- `EnhancedTTSGenerator.synthesize_speech`
(`enhanced_tts.py` lines 295–350): empty-text guard, engine-order
computation, then the attempt loop. Returns the output path paired
with the name of the engine that produced it. -/
def synthesize_speech (avail : EngineAvail)
    (engineRes : String → Except String String)
    (text language : String) (prefer_engine : Option String) :
    Except String (String × String) :=
  if isBlank text then .error "Text cannot be empty"
  else attemptEngines avail language engineRes (engineOrder language prefer_engine) none

/-! ## Voice cloner (`src/clone/clone.py`) -/

/-- State of a `VoiceCloner` visible to
`extract_speaker_embedding`: the `speaker_embeddings` cache and the
number of times the preprocessing/extraction logic has run (used to
index the extraction oracle, since the extraction draws fresh random
values each time). Embeddings are abstracted as the values the oracle
returns. -/
structure ClonerState where
  cache : List (String × Nat) := []
  extractCount : Nat := 0
  deriving Repr, DecidableEq

/-- `cache_key = speaker_name or str(audio_path)` — Python `or`
treats the empty string as absent. -/
def cacheKey (audio_path : String) (speaker_name : Option String) : String :=
  match speaker_name with
  | some s => if s = "" then audio_path else s
  | none => audio_path

/-- Dictionary lookup in the `speaker_embeddings` cache. -/
def lookupCache (c : List (String × Nat)) (k : String) : Option Nat :=
  (c.find? (fun p => p.1 = k)).map (fun p => p.2)

/-- `VoiceCloner.extract_speaker_embedding` (`clone.py` lines 56–108):
existence check, cache consultation, then preprocessing + extraction
(one oracle step, indexed by invocation count) and cache insertion.
`fs` is the file-system existence predicate; `extractOracle n` is the
embedding produced by the n-th run of
`_preprocess_reference_audio` + `_extract_embedding_from_audio`, or
the message of the exception that run raises. -/
def extract_speaker_embedding (fs : String → Bool)
    (extractOracle : Nat → Except String Nat) (st : ClonerState)
    (audio_path : String) (speaker_name : Option String) (cache : Bool) :
    Except String (Nat × ClonerState) :=
  if ¬ fs audio_path then
    .error ("Audio file not found: " ++ audio_path)
  else
    match cache, lookupCache st.cache (cacheKey audio_path speaker_name) with
    | true, some emb => .ok (emb, st)
    | _, _ =>
      match extractOracle st.extractCount with
      | .error e => .error e
      | .ok emb =>
        .ok (emb,
          { cache :=
              if cache then (cacheKey audio_path speaker_name, emb) :: st.cache
              else st.cache,
            extractCount := st.extractCount + 1 })

/-! ## Backend (`src/backend/app.py`) — lecturer asset resolution -/

/-- `CONFIG["supported_image_formats"]`. -/
def supportedImageFormats : List String := [".jpg", ".jpeg", ".png"]

/-- `CONFIG["supported_audio_formats"]`. -/
def supportedAudioFormats : List String := [".wav", ".mp3", ".m4a", ".flac"]

/-- The portraits directory (`CONFIG["portraits_dir"]`). -/
def portraitsDir : String := "portraits"

/-- Last path component, as `pathlib.Path(p).name`. -/
def fileName (p : String) : String :=
  ((p.splitOn "/").getLast?).getD p

/-- Index of the last occurrence of `c` in `cs`, if any. -/
def lastIndexOf (cs : List Char) (c : Char) : Option Nat :=
  (cs.foldl (fun (acc : Nat × Option Nat) x =>
    (acc.1 + 1, if x = c then some acc.1 else acc.2)) (0, none)).2

/-- `pathlib.Path(p).suffix`: the extension from the last dot of the
file name, empty when the dot is absent, leading, or trailing. -/
def pathSuffix (p : String) : String :=
  let n := (fileName p).toList
  match lastIndexOf n '.' with
  | none => ""
  | some i => if 0 < i ∧ i < n.length - 1 then String.mk (n.drop i) else ""

/-- One `tasks[task_id].update({...})` call: the fields the dictionary
update supplies. `none` means the key is absent from the update
(the stored value is left unchanged). `used_sample_fallback?` models
the `partial_custom` key of the source. -/
structure JobUpdate where
  status? : Option String := none
  progress? : Option Nat := none
  message? : Option String := none
  result_path? : Option String := none
  result_url? : Option String := none
  error? : Option String := none
  suggestion? : Option String := none
  created_lecturer? : Option String := none
  used_sample_fallback? : Option Bool := none
  used_custom_portrait? : Option Bool := none
  used_custom_voice? : Option Bool := none
  transcription? : Option String := none
  final_text? : Option String := none
  original_text? : Option String := none
  used_voice_cloning? : Option Bool := none
  lecturer_name? : Option String := none
  enhance_face? : Option Bool := none
  still_mode? : Option Bool := none
  image_used? : Option String := none
  audio_used? : Option String := none
  deriving Repr

/-- `get_lecturer_files` (`app.py` lines 1128–1162): probe the
portrait `{name}{ext}` over the image-extension list and the voice
reference `{name}_voice{ext}` over the audio-extension list, first
existing match winning, raising `FileNotFoundError` when either half
is missing. `fs` is the file-system existence predicate. -/
def get_lecturer_files (fs : String → Bool) (lecturer_name : String) :
    Except String (String × String) :=
  match supportedImageFormats.find?
      (fun ext => fs (portraitsDir ++ "/" ++ lecturer_name ++ ext)) with
  | none => .error ("Portrait not found for lecturer: " ++ lecturer_name)
  | some pext =>
    match supportedAudioFormats.find?
        (fun ext => fs (portraitsDir ++ "/" ++ lecturer_name ++ "_voice" ++ ext)) with
    | none => .error ("Voice reference not found for lecturer: " ++ lecturer_name)
    | some vext =>
      .ok (portraitsDir ++ "/" ++ lecturer_name ++ pext,
           portraitsDir ++ "/" ++ lecturer_name ++ "_voice" ++ vext)

/-- Task write of the create-new-lecturer branch of
`get_or_create_lecturer_files` (`app.py` 1209–1213). -/
def createdLecturerWrite (lecturer_name : String) : JobUpdate :=
  { message? := some ("Created new lecturer " ++ lecturer_name ++
      " and generating video..."),
    created_lecturer? := some lecturer_name }

/-- Task write of the partial-custom branch of
`get_or_create_lecturer_files` (`app.py` 1230–1240); `which` is the
joined list of supplied custom asset kinds. -/
def sampleFallbackWrite (which : String) : JobUpdate :=
  { message? := some ("Using custom " ++ which ++ " with sample_lecturer fallback..."),
    used_sample_fallback? := some true }

/-- The not-found error message of `get_or_create_lecturer_files`. -/
def lecturerNotFoundMsg (lecturer_name : String) : String :=
  "Lecturer " ++ lecturer_name ++
    " not found. Please upload both portrait and voice files to create this lecturer, or use an existing lecturer."

/-- Task write of the no-custom-assets failure branch of
`get_or_create_lecturer_files` (`app.py` 1250–1257). -/
def lecturerNotFoundWrite (lecturer_name : String) : JobUpdate :=
  { status? := some "failed", progress? := some 0,
    message? := some "Lecturer not found",
    error? := some (lecturerNotFoundMsg lecturer_name),
    suggestion? := some "Upload both portrait image and voice audio files to create a new lecturer, or choose from available lecturers." }

/-- `get_or_create_lecturer_files` (`app.py` lines 1165–1259).
Returns the resolution result, the task-record writes the function
performs, and the file system after its `shutil.copy2` side effects.
Branches, in source order: existing profile; both custom files
(create); exactly one custom file (sample_lecturer fallback for the
missing half); neither (fail with suggestion). -/
def get_or_create_lecturer_files (fs : String → Bool) (lecturer_name : String)
    (custom_portrait_path custom_voice_path : Option String) :
    Except String (String × String) × List JobUpdate × (String → Bool) :=
  match get_lecturer_files fs lecturer_name with
  | .ok pv => (.ok pv, [], fs)
  | .error _ =>
    match custom_portrait_path, custom_voice_path with
    | some cp, some cv =>
      let new_portrait_path := portraitsDir ++ "/" ++ lecturer_name ++ pathSuffix cp
      let new_voice_path := portraitsDir ++ "/" ++ lecturer_name ++ "_voice" ++ pathSuffix cv
      (.ok (new_portrait_path, new_voice_path),
       [createdLecturerWrite lecturer_name],
       fun s => s = new_portrait_path || s = new_voice_path || fs s)
    | some cp, none =>
      match get_lecturer_files fs "sample_lecturer" with
      | .error _ =>
        (.error "Neither the requested lecturer nor sample_lecturer is available", [], fs)
      | .ok (_, default_voice_ref_path) =>
        (.ok (cp, default_voice_ref_path), [sampleFallbackWrite "portrait"], fs)
    | none, some cv =>
      match get_lecturer_files fs "sample_lecturer" with
      | .error _ =>
        (.error "Neither the requested lecturer nor sample_lecturer is available", [], fs)
      | .ok (default_portrait_path, _) =>
        (.ok (default_portrait_path, cv), [sampleFallbackWrite "voice"], fs)
    | none, none =>
      (.error (lecturerNotFoundMsg lecturer_name),
       [lecturerNotFoundWrite lecturer_name],
       fs)

/-! ## Backend — job processors as task-record write traces -/

/-- The synchronous write creating the task record in the endpoint
handler (`status: started, progress: 0`). -/
def startWrite (m : String) : JobUpdate :=
  { status? := some "started", progress? := some 0, message? := some m }

/-- A mid-pipeline `progress`/`message` update. -/
def progressWrite (p : Nat) (m : String) : JobUpdate :=
  { progress? := some p, message? := some m }

/-- The `except`-handler write shared by all four processors:
`status: failed, progress: 0, message: "Generation failed",
error: str(e)`. -/
def failWrite (e : String) : JobUpdate :=
  { status? := some "failed", progress? := some 0,
    message? := some "Generation failed", error? := some e }

/-- Terminal write of `process_text_generation` (`app.py` 807–815). -/
def textCompletedWrite (task_id : String) (cp cv : Option String) : JobUpdate :=
  { status? := some "completed", progress? := some 100,
    message? := some "Video generation completed",
    result_path? := some ("outputs/" ++ task_id ++ "/avatar_video.mp4"),
    result_url? := some ("/result/" ++ task_id),
    used_custom_portrait? := some cp.isSome,
    used_custom_voice? := some cv.isSome }

/-- Terminal write of `process_audio_generation` (`app.py` 917–927);
the source key `used_custom_voice_clone` is carried by
`used_custom_voice?`. -/
def audioCompletedWrite (task_id transcribed final_text : String)
    (cp cv : Option String) : JobUpdate :=
  { status? := some "completed", progress? := some 100,
    message? := some "Video generation completed",
    result_path? := some ("outputs/" ++ task_id ++ "/avatar_video.mp4"),
    result_url? := some ("/result/" ++ task_id),
    transcription? := some transcribed,
    final_text? := some final_text,
    used_custom_portrait? := some cp.isSome,
    used_custom_voice? := some cv.isSome }

/-- Terminal write of `process_custom_image_generation`
(`app.py` 1020–1029). -/
def customCompletedWrite (task_id original_text final_text : String)
    (voice_path : Option String) : JobUpdate :=
  { status? := some "completed", progress? := some 100,
    message? := some "Custom video generation completed",
    result_path? := some ("outputs/" ++ task_id ++ "/custom_avatar_video.mp4"),
    result_url? := some ("/result/" ++ task_id),
    original_text? := some original_text,
    final_text? := some final_text,
    used_voice_cloning? := some voice_path.isSome }

/-- Terminal write of `process_image_audio_generation`
(`app.py` 1094–1105). -/
def imageAudioCompletedWrite (task_id lecturer_name : String)
    (enhance_face still_mode : Bool) (image_path audio_path : String) : JobUpdate :=
  { status? := some "completed", progress? := some 100,
    message? := some "Image + Audio video generation completed",
    result_path? := some ("outputs/" ++ task_id ++ "/image_audio_video.mp4"),
    result_url? := some ("/result/" ++ task_id),
    lecturer_name? := some lecturer_name,
    enhance_face? := some enhance_face,
    still_mode? := some still_mode,
    image_used? := some (fileName image_path),
    audio_used? := some (fileName audio_path) }

/-- `try`/`except` step shared by the processors: on `.error` the
handler performs the single `failWrite` and the job stops; on `.ok`
the pipeline continues with the value. -/
def onErrWith {α : Type} (x : Except String α) (k : α → List JobUpdate) :
    List JobUpdate :=
  match x with
  | .error e => [failWrite e]
  | .ok a => k a

/-- The asset-resolution step inside a processor: the resolver's own
task writes, then either the `except` handler's `failWrite` or the
continuation. -/
def resolverSeq (fs : String → Bool) (lecturer_name : String)
    (cp cv : Option String) (tail : List JobUpdate) : List JobUpdate :=
  (get_or_create_lecturer_files fs lecturer_name cp cv).2.1 ++
  onErrWith (get_or_create_lecturer_files fs lecturer_name cp cv).1 (fun _ => tail)

/-- Speech and video stages of `process_text_generation`
(`app.py` 777–815). -/
def textGenTail (avail : EngineAvail)
    (engineRes : String → Except String String) (videoRes : Except String Unit)
    (task_id text language : String) (cp cv : Option String) : List JobUpdate :=
  progressWrite 20 "Generating speech..." ::
  onErrWith (synthesize_speech avail engineRes text language none) (fun _ =>
    progressWrite 60 "Generating video..." ::
    onErrWith videoRes (fun _ => [textCompletedWrite task_id cp cv]))

/-- `process_text_generation` (`app.py` lines 752–826), as the ordered
sequence of task-record writes it performs, preceded by the creating
write of the endpoint. `componentsInit` abstracts the lazy component
construction, `videoRes` the video synthesizer invocation. -/
def process_text_generation (fs : String → Bool) (avail : EngineAvail)
    (engineRes : String → Except String String)
    (componentsInit videoRes : Except String Unit)
    (task_id text language lecturer_name : String)
    (custom_portrait_path custom_voice_path : Option String) : List JobUpdate :=
  startWrite "Processing text input..." ::
  onErrWith componentsInit (fun _ =>
    progressWrite 10 "Preparing text..." ::
    resolverSeq fs lecturer_name custom_portrait_path custom_voice_path
      (textGenTail avail engineRes videoRes task_id text language
        custom_portrait_path custom_voice_path))

/-- Cloned-speech and video stages of `process_audio_generation`
(`app.py` 887–927). -/
def audioSynthTail (avail : EngineAvail)
    (engineRes : String → Except String String) (videoRes : Except String Unit)
    (task_id translate_to transcribed final_text : String)
    (cp cv : Option String) : List JobUpdate :=
  progressWrite 50 "Generating cloned speech..." ::
  onErrWith (synthesize_speech avail engineRes final_text translate_to none) (fun _ =>
    progressWrite 80 "Generating video..." ::
    onErrWith videoRes (fun _ =>
      [audioCompletedWrite task_id transcribed final_text cp cv]))

/-- Asset resolution onwards in `process_audio_generation`
(`app.py` 875–927). -/
def audioGenTail (fs : String → Bool) (avail : EngineAvail)
    (engineRes : String → Except String String) (videoRes : Except String Unit)
    (task_id translate_to lecturer_name transcribed final_text : String)
    (cp cv : Option String) : List JobUpdate :=
  progressWrite 40 "Preparing assets..." ::
  resolverSeq fs lecturer_name cp cv
    (audioSynthTail avail engineRes videoRes task_id translate_to transcribed
      final_text cp cv)

/-- `process_audio_generation` (`app.py` lines 829–938):
transcription, then — when source and target differ — either
`smart_translate` (source `auto` or target `en`; never raises) or
`translate_text`, then the shared tail. `transcribeRes` abstracts the
ASR call, `runModel` the translation models. -/
def process_audio_generation (fs : String → Bool) (avail : EngineAvail)
    (engineRes : String → Except String String)
    (componentsInit videoRes : Except String Unit)
    (transcribeRes : Except String String)
    (runModel : String → String → Except String String)
    (task_id language translate_to lecturer_name : String)
    (cp cv : Option String) : List JobUpdate :=
  startWrite "Processing audio input..." ::
  onErrWith componentsInit (fun _ =>
    progressWrite 10 "Transcribing audio..." ::
    onErrWith transcribeRes (fun transcribed =>
      progressWrite 30 "Translating text..." ::
      if language ≠ translate_to then
        if language = "auto" || translate_to = "en" then
          audioGenTail fs avail engineRes videoRes task_id translate_to lecturer_name
            transcribed (smart_translate transcribed translate_to runModel).translated_text
            cp cv
        else
          onErrWith (translate_text transcribed language translate_to runModel) (fun tr =>
            audioGenTail fs avail engineRes videoRes task_id translate_to lecturer_name
              transcribed tr.translated_text cp cv)
      else
        audioGenTail fs avail engineRes videoRes task_id translate_to lecturer_name
          transcribed transcribed cp cv))

/-- Speech and video stages of `process_custom_image_generation`
(`app.py` 981–1029); no lecturer-profile resolution. -/
def customGenTail (avail : EngineAvail)
    (engineRes : String → Except String String) (videoRes : Except String Unit)
    (task_id text translate_to final_text : String)
    (voice_path : Option String) : List JobUpdate :=
  progressWrite 40 "Generating speech..." ::
  onErrWith (synthesize_speech avail engineRes final_text translate_to none) (fun _ =>
    progressWrite 70 "Generating video..." ::
    onErrWith videoRes (fun _ =>
      [customCompletedWrite task_id text final_text voice_path]))

/-- `process_custom_image_generation` (`app.py` lines 947–1040). -/
def process_custom_image_generation (avail : EngineAvail)
    (engineRes : String → Except String String)
    (componentsInit videoRes : Except String Unit)
    (runModel : String → String → Except String String)
    (task_id text language translate_to : String)
    (voice_path : Option String) : List JobUpdate :=
  startWrite "Processing custom image and text..." ::
  onErrWith componentsInit (fun _ =>
    progressWrite 10 "Processing text..." ::
    if language ≠ translate_to then
      progressWrite 20 "Translating text..." ::
      onErrWith (translate_text text language translate_to runModel) (fun tr =>
        customGenTail avail engineRes videoRes task_id text translate_to
          tr.translated_text voice_path)
    else
      customGenTail avail engineRes videoRes task_id text translate_to text voice_path)

/-- `process_image_audio_generation` (`app.py` lines 1043–1118):
input-existence validation, then a single video-synthesis stage. -/
def process_image_audio_generation (fs : String → Bool)
    (componentsInit videoRes : Except String Unit)
    (task_id image_path audio_path lecturer_name : String)
    (enhance_face still_mode : Bool) : List JobUpdate :=
  startWrite "Processing image and audio..." ::
  onErrWith componentsInit (fun _ =>
    progressWrite 10 "Processing image and audio..." ::
    if ¬ fs image_path then [failWrite ("Image file not found: " ++ image_path)]
    else if ¬ fs audio_path then [failWrite ("Audio file not found: " ++ audio_path)]
    else
      progressWrite 30 "Preparing video generation..." ::
      progressWrite 50 "Generating video with image and audio..." ::
      onErrWith videoRes (fun _ =>
        [imageAudioCompletedWrite task_id lecturer_name enhance_face
          still_mode image_path audio_path]))

/-- A job of any of the four kinds, with all its inputs and stage
oracles. `JobRun.trace` is the full write trace of the job. -/
inductive JobRun where
  | text (fs : String → Bool) (avail : EngineAvail)
      (engineRes : String → Except String String)
      (componentsInit videoRes : Except String Unit)
      (task_id txt language lecturer_name : String)
      (cp cv : Option String) : JobRun
  | audio (fs : String → Bool) (avail : EngineAvail)
      (engineRes : String → Except String String)
      (componentsInit videoRes : Except String Unit)
      (transcribeRes : Except String String)
      (runModel : String → String → Except String String)
      (task_id language translate_to lecturer_name : String)
      (cp cv : Option String) : JobRun
  | customImage (avail : EngineAvail)
      (engineRes : String → Except String String)
      (componentsInit videoRes : Except String Unit)
      (runModel : String → String → Except String String)
      (task_id txt language translate_to : String)
      (voice_path : Option String) : JobRun
  | imageAudio (fs : String → Bool)
      (componentsInit videoRes : Except String Unit)
      (task_id image_path audio_path lecturer_name : String)
      (enhance_face still_mode : Bool) : JobRun

/-- The write trace of a job run. -/
def JobRun.trace : JobRun → List JobUpdate
  | .text fs avail engineRes componentsInit videoRes task_id txt language
      lecturer_name cp cv =>
    process_text_generation fs avail engineRes componentsInit videoRes
      task_id txt language lecturer_name cp cv
  | .audio fs avail engineRes componentsInit videoRes transcribeRes runModel
      task_id language translate_to lecturer_name cp cv =>
    process_audio_generation fs avail engineRes componentsInit videoRes
      transcribeRes runModel task_id language translate_to lecturer_name cp cv
  | .customImage avail engineRes componentsInit videoRes runModel
      task_id txt language translate_to voice_path =>
    process_custom_image_generation avail engineRes componentsInit videoRes
      runModel task_id txt language translate_to voice_path
  | .imageAudio fs componentsInit videoRes task_id image_path audio_path
      lecturer_name enhance_face still_mode =>
    process_image_audio_generation fs componentsInit videoRes task_id
      image_path audio_path lecturer_name enhance_face still_mode

/-! ## Trace analysis: progress/status shape of the write sequence -/

/-- The progress and status fields a write supplies. -/
def writeShape (u : JobUpdate) : Option Nat × Option String :=
  (u.progress?, u.status?)

/-- Progress/status projection of a whole write trace. -/
def traceShape (t : List JobUpdate) : List (Option Nat × Option String) :=
  t.map writeShape

/-- The claim's monotonicity reading: every write leaves the stored
progress at least its previous value (a write without a `progress` key
leaves it unchanged). -/
def progressNonDecreasing : Nat → List (Option Nat × Option String) → Bool
  | _, [] => true
  | cur, (p, _) :: rest =>
    decide (cur ≤ p.getD cur) && progressNonDecreasing (p.getD cur) rest

/-- The claim's terminality reading: no write at all follows the first
write that sets a terminal status. -/
def frozenAfterTerminal : List (Option Nat × Option String) → Bool
  | [] => true
  | (_, s) :: rest =>
    if s = some "completed" ∨ s = some "failed" then rest.isEmpty
    else frozenAfterTerminal rest

/-- The discipline the write traces actually obey: progress is
non-decreasing while the status stays non-terminal; a `failed` write
resets progress to 0; nothing follows a `completed` write; after the
first `failed` write at most one more write occurs and it again
records `failed` with progress 0. -/
def goodShape : Nat → List (Option Nat × Option String) → Bool
  | _, [] => true
  | cur, (p, s) :: rest =>
    if s = some "completed" then rest.isEmpty
    else if s = some "failed" then
      (p == some 0) &&
      (match rest with
       | [] => true
       | [(p2, s2)] => decide (s2 = some "failed") && decide (p2 = some 0)
       | _ => false)
    else
      decide (cur ≤ p.getD cur) && goodShape (p.getD cur) rest

/-- A write with no status and no progress key leaves the shape
invariant unchanged. -/
lemma goodShape_plain (cur : Nat) (u : JobUpdate) (l : List JobUpdate)
    (hp : u.progress? = none) (hs : u.status? = none) :
    goodShape cur (traceShape (u :: l)) = goodShape cur (traceShape l) := by
  simp [traceShape, writeShape, goodShape, hp, hs]

/-- The creating `started` write keeps the invariant at progress 0. -/
lemma goodShape_start (m : String) (l : List JobUpdate) :
    goodShape 0 (traceShape (startWrite m :: l)) = goodShape 0 (traceShape l) := by
  simp [traceShape, writeShape, goodShape, startWrite]

/-- A progress write advancing from `cur` to `p`. -/
lemma goodShape_prog (cur p : Nat) (m : String) (l : List JobUpdate)
    (h : cur ≤ p) :
    goodShape cur (traceShape (progressWrite p m :: l)) =
      goodShape p (traceShape l) := by
  simp [traceShape, writeShape, goodShape, progressWrite, h]

/-- A single trailing failure write satisfies the discipline. -/
lemma goodShape_fail_single (cur : Nat) (e : String) :
    goodShape cur (traceShape [failWrite e]) = true := by
  simp [traceShape, writeShape, goodShape, failWrite]

/-- A failed-status write followed by the handler's failure write
satisfies the discipline. -/
lemma goodShape_fail_double (cur : Nat) (u : JobUpdate) (e : String)
    (hs : u.status? = some "failed") (hp : u.progress? = some 0) :
    goodShape cur (traceShape [u, failWrite e]) = true := by
  simp [traceShape, writeShape, goodShape, failWrite, hs, hp]

/-- A single trailing completed write satisfies the discipline. -/
lemma goodShape_completed (cur : Nat) (u : JobUpdate)
    (hs : u.status? = some "completed") :
    goodShape cur (traceShape [u]) = true := by
  simp [traceShape, writeShape, goodShape, hs]

/-- The `try`/`except` step preserves the discipline. -/
lemma goodShape_onErrWith (cur : Nat) {α : Type} (x : Except String α)
    (k : α → List JobUpdate)
    (hk : ∀ a, x = .ok a → goodShape cur (traceShape (k a)) = true) :
    goodShape cur (traceShape (onErrWith x k)) = true := by
  cases hx : x with
  | error e =>
    simp only [onErrWith]
    exact goodShape_fail_single cur e
  | ok a =>
    simp only [onErrWith]
    exact hk a hx

/-- The asset-resolution step preserves the discipline: its writes are
either key-free informational updates, or the failed write that the
handler's failure write is allowed to follow. -/
lemma resolverSeq_goodShape (cur : Nat) (fs : String → Bool) (name : String)
    (cp cv : Option String) (tail : List JobUpdate)
    (htail : goodShape cur (traceShape tail) = true) :
    goodShape cur (traceShape (resolverSeq fs name cp cv tail)) = true := by
  unfold resolverSeq
  cases hg : get_lecturer_files fs name with
  | ok pv =>
    simp only [get_or_create_lecturer_files, hg, onErrWith, List.nil_append]
    exact htail
  | error e =>
    cases cp with
    | some p =>
      cases cv with
      | some v =>
        simp only [get_or_create_lecturer_files, hg, onErrWith,
          List.cons_append, List.nil_append]
        rw [goodShape_plain cur _ _ rfl rfl]
        exact htail
      | none =>
        cases hs : get_lecturer_files fs "sample_lecturer" with
        | ok dpv =>
          obtain ⟨dp, dv⟩ := dpv
          simp only [get_or_create_lecturer_files, hg, hs, onErrWith,
            List.cons_append, List.nil_append]
          rw [goodShape_plain cur _ _ rfl rfl]
          exact htail
        | error e2 =>
          simp only [get_or_create_lecturer_files, hg, hs, onErrWith,
            List.nil_append]
          exact goodShape_fail_single cur _
    | none =>
      cases cv with
      | some v =>
        cases hs : get_lecturer_files fs "sample_lecturer" with
        | ok dpv =>
          obtain ⟨dp, dv⟩ := dpv
          simp only [get_or_create_lecturer_files, hg, hs, onErrWith,
            List.cons_append, List.nil_append]
          rw [goodShape_plain cur _ _ rfl rfl]
          exact htail
        | error e2 =>
          simp only [get_or_create_lecturer_files, hg, hs, onErrWith,
            List.nil_append]
          exact goodShape_fail_single cur _
      | none =>
        simp only [get_or_create_lecturer_files, hg, onErrWith,
          List.cons_append, List.nil_append]
        exact goodShape_fail_double cur _ _ rfl rfl

/-! ## Theorems — translator claims -/

/-- A Devanagari character is never a basic Latin letter: the script
blocks are disjoint. -/
lemma isDevanagari_not_latin (c : Char) (h : isDevanagari c = true) :
    isBasicLatinAlpha c = false := by
  simp only [isDevanagari, Bool.and_eq_true, decide_eq_true_eq] at h
  simp only [isBasicLatinAlpha, Bool.and_eq_false_iff]
  right
  simp only [decide_eq_false_iff_not]
  omega

/-- The character-count fold of `detect_language` computes the two
`countP` values, the Latin count restricted to non-Devanagari
characters (the `elif`). -/
lemma detect_fold_counts (l : List Char) (a b : Nat) :
    l.foldl
      (fun (acc : Nat × Nat) c =>
        if isDevanagari c then (acc.1 + 1, acc.2)
        else if isBasicLatinAlpha c then (acc.1, acc.2 + 1)
        else acc) (a, b) =
    (a + l.countP isDevanagari,
     b + l.countP (fun c => !isDevanagari c && isBasicLatinAlpha c)) := by
  induction l generalizing a b with
  | nil => simp
  | cons c l ih =>
    by_cases hd : isDevanagari c = true
    · simp [List.countP_cons, hd, ih]
      omega
    · simp only [Bool.not_eq_true] at hd
      by_cases hl : isBasicLatinAlpha c = true
      · simp [List.countP_cons, hd, hl, ih]
        omega
      · simp only [Bool.not_eq_true] at hl
        simp [List.countP_cons, hd, hl, ih]

/-- The `elif`-restricted Latin predicate agrees with the plain one,
by script disjointness. -/
lemma effective_latin_count (l : List Char) :
    l.countP (fun c => !isDevanagari c && isBasicLatinAlpha c) =
      l.countP isBasicLatinAlpha := by
  apply List.countP_congr
  intro c _
  by_cases hd : isDevanagari c = true
  · simp [hd, isDevanagari_not_latin c hd]
  · simp only [Bool.not_eq_true] at hd
    simp [hd]

/-- C7: `detect_language` counts Devanagari-block characters
(U+0900–U+097F) against basic Latin alphabetic characters (code point
below 128) and returns `"hi"` exactly when the Devanagari count is
strictly greater, `"en"` otherwise — including on ties and for text in
any other script. -/
theorem detect_language_spec (text : String) :
    detect_language text =
      if text.toList.countP isDevanagari > text.toList.countP isBasicLatinAlpha
      then "hi" else "en" := by
  unfold detect_language
  rw [detect_fold_counts, effective_latin_count]
  simp

/-- C10: for whitespace-only (or empty) input text, `translate_text`
returns the empty translation with the given language codes, for every
source/target pair and every model oracle: model selection is skipped,
so no unsupported-pair error can be raised. -/
theorem translate_text_blank (text source_lang target_lang : String)
    (runModel : String → String → Except String String)
    (h : isBlank text = true) :
    translate_text text source_lang target_lang runModel =
      .ok ⟨text, "", source_lang, target_lang, none⟩ := by
  simp [translate_text, h]

/-- C10 witness: the two-space string is blank and translates to the
empty string under an always-failing model oracle. -/
theorem translate_text_blank_witness :
    translate_text "  " "fr" "de" (fun _ _ => Except.error "no model") =
      .ok ⟨"  ", "", "fr", "de", none⟩ :=
  translate_text_blank "  " "fr" "de" (fun _ _ => Except.error "no model") (by decide)

/-- C6 counterexample: with `source_lang = "auto"` and
`target_lang = "gu"`, the code selects the Hindi→English model
`hi_to_en`, not a model with the requested target (`hi_to_gu`), so the
claimed "primary regional language as the source for the requested
target" fallback is false as stated. -/
theorem selectModelKey_auto_counterexample :
    selectModelKey "auto" "gu" = .ok "hi_to_en" ∧
      selectModelKey "auto" "gu" ≠ .ok ("hi_to_" ++ "gu") := by
  constructor <;> decide

/-- C6 (amended): `translate_text` model selection satisfies:
(a) `auto`→`en` uses `auto_to_en`; (b) `auto`→non-`en` falls back to
the Hindi→English model `hi_to_en` regardless of the requested target;
(c) for a non-`auto` source, a direct pair model is used when present,
else the Indic multilingual model in the matching direction when the
pair is English paired with the Indic family; (d) otherwise selection
fails with a not-supported error naming the attempted pair. -/
theorem selectModelKey_spec (source_lang target_lang : String) :
    (selectModelKey "auto" "en" = .ok "auto_to_en") ∧
    (target_lang ≠ "en" → selectModelKey "auto" target_lang = .ok "hi_to_en") ∧
    (source_lang ≠ "auto" →
      modelConfigKeys.contains (source_lang ++ "_to_" ++ target_lang) = true →
      selectModelKey source_lang target_lang =
        .ok (source_lang ++ "_to_" ++ target_lang)) ∧
    (source_lang = "en" → indicFallbackLangs.contains target_lang = true →
      selectModelKey source_lang target_lang = .ok "en_to_indic") ∧
    (indicFallbackLangs.contains source_lang = true → target_lang = "en" →
      selectModelKey source_lang target_lang = .ok "indic_to_en") ∧
    (source_lang ≠ "auto" →
      modelConfigKeys.contains (source_lang ++ "_to_" ++ target_lang) = false →
      ¬(source_lang = "en" ∧ indicFallbackLangs.contains target_lang = true) →
      ¬(indicFallbackLangs.contains source_lang = true ∧ target_lang = "en") →
      selectModelKey source_lang target_lang =
        .error ("Translation from " ++ source_lang ++ " to " ++ target_lang ++
          availableModelsSuffix)) := by
  refine ⟨by decide, ?_, ?_, ?_, ?_, ?_⟩
  · intro ht
    simp [selectModelKey, ht, modelConfigKeys]
  · intro hs hk
    have hk' : source_lang ++ "_to_" ++ target_lang ∈ modelConfigKeys := by
      simpa using hk
    simp [selectModelKey, hs, hk']
  · intro hs ht
    subst hs
    have hcases : target_lang = "ta" ∨ target_lang = "te" ∨ target_lang = "gu" ∨
        target_lang = "kn" ∨ target_lang = "ml" ∨ target_lang = "pa" := by
      simpa [indicFallbackLangs] using ht
    rcases hcases with h | h | h | h | h | h <;> subst h <;> decide
  · intro hs ht
    subst ht
    have hcases : source_lang = "ta" ∨ source_lang = "te" ∨ source_lang = "gu" ∨
        source_lang = "kn" ∨ source_lang = "ml" ∨ source_lang = "pa" := by
      simpa [indicFallbackLangs] using hs
    rcases hcases with h | h | h | h | h | h <;> subst h <;> decide
  · intro hs hk hen hind
    have hk' : ¬ (source_lang ++ "_to_" ++ target_lang ∈ modelConfigKeys) := by
      simpa using hk
    have hen' : ¬ (source_lang = "en" ∧ target_lang ∈ indicFallbackLangs) := by
      rintro ⟨a, b⟩
      exact hen ⟨a, by simpa using b⟩
    have hind' : ¬ (source_lang ∈ indicFallbackLangs ∧ target_lang = "en") := by
      rintro ⟨a, b⟩
      exact hind ⟨by simpa using a, b⟩
    simp [selectModelKey, hs, hk', hen', hind']

/-- C6 witness: the amended selection rules at concrete pairs —
a direct pair (`hi`→`en`), the auto-to-non-English Hindi fallback,
the Indic fallback (`ta`→`en`), and a rejected pair (`fr`→`de`). -/
theorem selectModelKey_spec_witness :
    selectModelKey "hi" "en" = .ok "hi_to_en" ∧
    selectModelKey "auto" "gu" = .ok "hi_to_en" ∧
    selectModelKey "ta" "en" = .ok "indic_to_en" ∧
    selectModelKey "fr" "de" =
      .error ("Translation from " ++ "fr" ++ " to " ++ "de" ++ availableModelsSuffix) :=
  ⟨(selectModelKey_spec "hi" "en").2.2.1 (by decide) (by decide),
   (selectModelKey_spec "x" "gu").2.1 (by decide),
   (selectModelKey_spec "ta" "en").2.2.2.2.1 (by decide) rfl,
   (selectModelKey_spec "fr" "de").2.2.2.2.2 (by decide) (by decide)
     (by decide) (by decide)⟩

/-- C2: `smart_translate` never raises (it is a total function into
`SmartResult`) and cascades: the auto-detecting path first; on its
failure the Indic multilingual model; on failure of both, the identity
fallback returning the original text tagged `fallback_no_translation`. -/
theorem smart_translate_spec (text target_lang : String)
    (runModel : String → String → Except String String) :
    (∀ r, translate_text text "auto" target_lang runModel = .ok r →
      smart_translate text target_lang runModel =
        ⟨r.source_text, r.translated_text, r.source_lang, r.target_lang,
          r.model_used, "auto_multilingual", none⟩) ∧
    (∀ e tt, translate_text text "auto" target_lang runModel = .error e →
      runModel "indic_to_en" text = .ok tt →
      smart_translate text target_lang runModel =
        ⟨text, tt, "indic", target_lang, some "indic_to_en",
          "indic_multilingual", none⟩) ∧
    (∀ e e2, translate_text text "auto" target_lang runModel = .error e →
      runModel "indic_to_en" text = .error e2 →
      smart_translate text target_lang runModel =
        ⟨text, text, "unknown", target_lang, some "none",
          "fallback_no_translation", some e2⟩) := by
  refine ⟨?_, ?_, ?_⟩
  · intro r h
    simp [smart_translate, h]
  · intro e tt h h2
    simp [smart_translate, h, h2]
  · intro e e2 h h2
    simp [smart_translate, h, h2]

/-- C2 witness: with every model raising, `smart_translate` returns
the original text with the `fallback_no_translation` marker. -/
theorem smart_translate_spec_witness :
    smart_translate "hello" "gu" (fun _ _ => Except.error "offline") =
      ⟨"hello", "hello", "unknown", "gu", some "none",
        "fallback_no_translation", some "offline"⟩ :=
  (smart_translate_spec "hello" "gu" (fun _ _ => Except.error "offline")).2.2
    "offline" "offline" (by decide) rfl

/-! ## Theorems — speech synthesis claims -/

/-- C4 counterexample: for Gujarati with preferred engine `pyttsx3`,
the code attempts `["pyttsx3", "coqui", "gtts"]`, while the claimed
"remaining engines in their default preference order for that
language" would be `["pyttsx3", "gtts", "coqui"]` (Gujarati's default
order is `["gtts", "coqui", "pyttsx3"]`). -/
theorem engineOrder_counterexample :
    engineOrder "gu" (some "pyttsx3") = ["pyttsx3", "coqui", "gtts"] ∧
    engineOrder "gu" (some "pyttsx3") ≠
      "pyttsx3" :: ((engine_preferences "gu").filter (fun e => e ≠ "pyttsx3")) := by
  constructor <;> decide

/-- C4 (amended): when a non-empty `prefer_engine` override is
supplied, the attempt order is the preferred engine first, followed by
the remaining engines in the fixed order `coqui, gtts, pyttsx3` —
independent of the language's default preference list. -/
theorem engineOrder_spec (language prefer : String) (h : prefer ≠ "") :
    engineOrder language (some prefer) =
      prefer :: (["coqui", "gtts", "pyttsx3"].filter (fun e => e ≠ prefer)) := by
  simp [engineOrder, h]

/-- C4 witness: the amended order at a concrete language/override. -/
theorem engineOrder_spec_witness :
    engineOrder "hi" (some "gtts") =
      "gtts" :: (["coqui", "gtts", "pyttsx3"].filter (fun e => e ≠ "gtts")) :=
  engineOrder_spec "hi" "gtts" (by decide)

/-- When no engine in the remaining order is supported, the loop
reports the carried `last_error`. -/
lemma attemptEngines_none_supported (avail : EngineAvail) (language : String)
    (engineRes : String → Except String String) :
    ∀ (order : List String) (msg : String),
    (∀ e ∈ order, engineSupports avail language e = false) →
    attemptEngines avail language engineRes order (some msg) = .error msg := by
  intro order
  induction order with
  | nil => intro msg _; rfl
  | cons eng rest ih =>
    intro msg hall
    have hs := hall eng (by simp)
    simp only [attemptEngines, hs, Bool.false_eq_true, if_false]
    exact ih msg (fun e he => hall e (by simp [he]))

/-- Success characterization of the engine attempt loop: an `.ok`
result names exactly the first engine in the order that is supported
and whose synthesis call succeeds, all earlier supported engines
having raised. -/
lemma attemptEngines_ok_iff (avail : EngineAvail) (language : String)
    (engineRes : String → Except String String) :
    ∀ (order : List String) (last : Option String) (path engine : String),
    attemptEngines avail language engineRes order last = .ok (path, engine) ↔
      ∃ pre post, order = pre ++ engine :: post ∧
        engineSupports avail language engine = true ∧
        engineRes engine = .ok path ∧
        ∀ e ∈ pre, engineSupports avail language e = true →
          ∃ msg, engineRes e = .error msg := by
  intro order
  induction order with
  | nil =>
    intro last path engine
    constructor
    · intro h
      cases last <;> simp [attemptEngines] at h
    · rintro ⟨pre, post, habs, -⟩
      exact absurd habs (by simp)
  | cons eng rest ih =>
    intro last path engine
    constructor
    · intro h
      simp only [attemptEngines] at h
      by_cases hs : engineSupports avail language eng = true
      · rw [if_pos hs] at h
        cases hr : engineRes eng with
        | ok p =>
          rw [hr] at h
          have hpe : p = path ∧ eng = engine := by
            have := Except.ok.inj h
            exact ⟨congrArg Prod.fst this, congrArg Prod.snd this⟩
          obtain ⟨rfl, rfl⟩ := hpe
          exact ⟨[], rest, rfl, hs, hr, by simp⟩
        | error msg =>
          rw [hr] at h
          obtain ⟨pre, post, heq, hsup, hok, hpre⟩ := (ih _ _ _).mp h
          refine ⟨eng :: pre, post, by simp [heq], hsup, hok, ?_⟩
          intro x hx hxs
          rcases List.mem_cons.mp hx with rfl | hx'
          · exact ⟨msg, hr⟩
          · exact hpre x hx' hxs
      · rw [if_neg hs] at h
        obtain ⟨pre, post, heq, hsup, hok, hpre⟩ := (ih _ _ _).mp h
        refine ⟨eng :: pre, post, by simp [heq], hsup, hok, ?_⟩
        intro x hx hxs
        rcases List.mem_cons.mp hx with rfl | hx'
        · exact absurd hxs hs
        · exact hpre x hx' hxs
    · rintro ⟨pre, post, heq, hsup, hok, hpre⟩
      cases pre with
      | nil =>
        simp only [List.nil_append, List.cons.injEq] at heq
        obtain ⟨rfl, rfl⟩ := heq
        simp [attemptEngines, hsup, hok]
      | cons p pre' =>
        simp only [List.cons_append, List.cons.injEq] at heq
        obtain ⟨rfl, hrest⟩ := heq
        simp only [attemptEngines]
        by_cases hs : engineSupports avail language eng = true
        · rw [if_pos hs]
          obtain ⟨msg, hmsg⟩ := hpre eng (by simp) hs
          rw [hmsg]
          exact (ih _ _ _).mpr
            ⟨pre', post, hrest, hsup, hok, fun x hx hxs => hpre x (by simp [hx]) hxs⟩
        · rw [if_neg hs]
          exact (ih _ _ _).mpr
            ⟨pre', post, hrest, hsup, hok, fun x hx hxs => hpre x (by simp [hx]) hxs⟩

/-- All-fail characterization: when every supported engine in the
order raises, the loop propagates the error of the last supported
engine. -/
lemma attemptEngines_all_fail (avail : EngineAvail) (language : String)
    (engineRes : String → Except String String) :
    ∀ (order : List String) (last : Option String) (engLast msg : String),
    (order.filter (fun e => engineSupports avail language e)).getLast? = some engLast →
    engineRes engLast = .error msg →
    (∀ e ∈ order, engineSupports avail language e = true → ∃ m, engineRes e = .error m) →
    attemptEngines avail language engineRes order last = .error msg := by
  intro order
  induction order with
  | nil => intro last engLast msg hlast _ _; simp at hlast
  | cons eng rest ih =>
    intro last engLast msg hlast hres hall
    by_cases hs : engineSupports avail language eng = true
    · obtain ⟨m, hm⟩ := hall eng (by simp) hs
      simp only [attemptEngines, if_pos hs, hm]
      have hfc : (eng :: rest).filter (fun e => engineSupports avail language e) =
          eng :: rest.filter (fun e => engineSupports avail language e) := by
        simp [List.filter_cons, hs]
      rw [hfc] at hlast
      by_cases hrest : rest.filter (fun e => engineSupports avail language e) = []
      · rw [hrest] at hlast
        simp only [List.getLast?_singleton, Option.some.injEq] at hlast
        subst hlast
        rw [hm] at hres
        have hmm : m = msg := Except.error.inj hres
        rw [hmm]
        exact attemptEngines_none_supported avail language engineRes rest msg
          (fun e he => by
            have := List.filter_eq_nil_iff.mp hrest e he
            simpa using this)
      · obtain ⟨x, xs, hxx⟩ := List.exists_cons_of_ne_nil hrest
        rw [hxx, List.getLast?_cons_cons] at hlast
        exact ih (some m) engLast msg (by rw [hxx]; exact hlast) hres
          (fun e he h => hall e (by simp [he]) h)
    · have hfc : (eng :: rest).filter (fun e => engineSupports avail language e) =
          rest.filter (fun e => engineSupports avail language e) := by
        simp only [List.filter_cons]
        rw [if_neg hs]
      simp only [attemptEngines, if_neg hs]
      exact ih last engLast msg (hfc ▸ hlast) hres
        (fun e he h => hall e (by simp [he]) h)

/-- C5: for non-blank text, `synthesize_speech` returns the output
path and the name of the first engine in the attempt order that both
passes its support guard for the requested language and completes
without error (unsupported or failing engines are skipped), and when
every supported engine raises, the last raised error is propagated. -/
theorem synthesize_speech_spec (avail : EngineAvail)
    (engineRes : String → Except String String)
    (text language : String) (prefer_engine : Option String)
    (htext : isBlank text = false) :
    (∀ path engine,
      synthesize_speech avail engineRes text language prefer_engine = .ok (path, engine) ↔
        ∃ pre post, engineOrder language prefer_engine = pre ++ engine :: post ∧
          engineSupports avail language engine = true ∧
          engineRes engine = .ok path ∧
          ∀ e ∈ pre, engineSupports avail language e = true →
            ∃ msg, engineRes e = .error msg) ∧
    (∀ engLast msg,
      ((engineOrder language prefer_engine).filter
          (fun e => engineSupports avail language e)).getLast? = some engLast →
      engineRes engLast = .error msg →
      (∀ e ∈ engineOrder language prefer_engine,
        engineSupports avail language e = true → ∃ m, engineRes e = .error m) →
      synthesize_speech avail engineRes text language prefer_engine = .error msg) := by
  constructor
  · intro path engine
    unfold synthesize_speech
    rw [htext]
    simp only [Bool.false_eq_true, if_false]
    exact attemptEngines_ok_iff avail language engineRes _ none path engine
  · intro engLast msg hlast hres hall
    unfold synthesize_speech
    rw [htext]
    simp only [Bool.false_eq_true, if_false]
    exact attemptEngines_all_fail avail language engineRes _ none engLast msg hlast hres hall

/-- C5 witness: with all engines available, for Gujarati the first
supported successful engine is `gtts` (its default order starts with
it); and with an always-raising back-end the last supported engine's
error (`pyttsx3`) is propagated. -/
theorem synthesize_speech_spec_witness :
    synthesize_speech ⟨true, true, true⟩
      (fun e => if e = "gtts" then Except.ok "out.wav" else Except.error "boom")
      "hello" "gu" none = .ok ("out.wav", "gtts") ∧
    synthesize_speech ⟨true, true, true⟩ (fun _ => Except.error "engine down")
      "hello" "gu" none = .error "engine down" :=
  ⟨((synthesize_speech_spec ⟨true, true, true⟩
      (fun e => if e = "gtts" then Except.ok "out.wav" else Except.error "boom")
      "hello" "gu" none (by decide)).1 "out.wav" "gtts").mpr
      ⟨[], ["coqui", "pyttsx3"], by decide, by decide, by decide, by simp⟩,
   (synthesize_speech_spec ⟨true, true, true⟩ (fun _ => Except.error "engine down")
      "hello" "gu" none (by decide)).2 "pyttsx3" "engine down" (by decide) rfl
      (fun e _ _ => ⟨"engine down", rfl⟩)⟩

/-! ## Theorems — voice cloner claim -/

/-- C9: with caching enabled, a successful extraction leaves the
embedding in the cache under its key, and a second call with the same
key returns exactly the cached embedding and the unchanged cloner
state — the preprocessing/extraction oracle is not consulted again
(the invocation counter does not move). -/
theorem extract_speaker_embedding_cached (fs : String → Bool)
    (extractOracle : Nat → Except String Nat) (st : ClonerState)
    (audio_path : String) (speaker_name : Option String) (emb : Nat)
    (st1 : ClonerState)
    (h : extract_speaker_embedding fs extractOracle st audio_path speaker_name true =
      .ok (emb, st1)) :
    extract_speaker_embedding fs extractOracle st1 audio_path speaker_name true =
      .ok (emb, st1) ∧
    lookupCache st1.cache (cacheKey audio_path speaker_name) = some emb := by
  unfold extract_speaker_embedding at h ⊢
  by_cases hf : fs audio_path = true
  · rw [if_neg (by simp [hf])] at h ⊢
    cases hc : lookupCache st.cache (cacheKey audio_path speaker_name) with
    | some e =>
      rw [hc] at h
      simp only [Except.ok.injEq, Prod.mk.injEq] at h
      obtain ⟨he, hst⟩ := h
      subst he
      subst hst
      exact ⟨by simp [hc], hc⟩
    | none =>
      rw [hc] at h
      cases ho : extractOracle st.extractCount with
      | error msg => rw [ho] at h; simp at h
      | ok e =>
        rw [ho] at h
        simp only [Except.ok.injEq, Prod.mk.injEq, if_true] at h
        obtain ⟨he, hst⟩ := h
        subst he
        have hlk : lookupCache st1.cache (cacheKey audio_path speaker_name) = some e := by
          rw [← hst]
          simp [lookupCache]
        exact ⟨by simp [hlk], hlk⟩
  · rw [if_pos (by simpa using hf)] at h
    simp at h

/-- C9 witness: a concrete first extraction populates the cache and
the second call returns the identical embedding and state. -/
theorem extract_speaker_embedding_cached_witness :
    extract_speaker_embedding (fun _ => true) (fun n => Except.ok (n + 7))
      ⟨[("voice.wav", 7)], 1⟩ "voice.wav" none true =
      .ok (7, ⟨[("voice.wav", 7)], 1⟩) ∧
    lookupCache [("voice.wav", 7)] (cacheKey "voice.wav" none) = some 7 :=
  extract_speaker_embedding_cached (fun _ => true) (fun n => Except.ok (n + 7))
    ⟨[], 0⟩ "voice.wav" none 7 ⟨[("voice.wav", 7)], 1⟩ (by decide)

/-! ## Theorems — lecturer asset resolution claim -/

/-- A string with a non-empty left part is non-empty. -/
lemma append_left_ne_empty (a b : String) (ha : a ≠ "") : a ++ b ≠ "" := by
  intro hc
  apply ha
  have hlen := congrArg String.length hc
  rw [String.length_append] at hlen
  have hz : a.length = 0 := by
    have : a.length + b.length = 0 := by simpa using hlen
    omega
  apply String.ext
  have hdata : a.data.length = 0 := hz
  simpa using List.eq_nil_of_length_eq_zero hdata

/-- C3: lecturer asset resolution priority. (1) A complete existing
profile wins and custom inputs are ignored; (2) else both customs are
copied into the registry under the naming convention (and exist there
afterwards); (3) else a single custom is combined with
`sample_lecturer`'s counterpart, failing when that default profile is
itself incomplete; (4) else resolution fails, with a failed task write
carrying a remediation suggestion. -/
theorem get_or_create_lecturer_files_spec (fs : String → Bool)
    (lecturer_name : String) (cp cv : Option String) :
    (∀ pv, get_lecturer_files fs lecturer_name = .ok pv →
      (get_or_create_lecturer_files fs lecturer_name cp cv).1 = .ok pv) ∧
    (∀ e p v, get_lecturer_files fs lecturer_name = .error e →
      cp = some p → cv = some v →
      (get_or_create_lecturer_files fs lecturer_name cp cv).1 =
        .ok (portraitsDir ++ "/" ++ lecturer_name ++ pathSuffix p,
             portraitsDir ++ "/" ++ lecturer_name ++ "_voice" ++ pathSuffix v) ∧
      (get_or_create_lecturer_files fs lecturer_name cp cv).2.2
        (portraitsDir ++ "/" ++ lecturer_name ++ pathSuffix p) = true ∧
      (get_or_create_lecturer_files fs lecturer_name cp cv).2.2
        (portraitsDir ++ "/" ++ lecturer_name ++ "_voice" ++ pathSuffix v) = true) ∧
    (∀ e p dp dv, get_lecturer_files fs lecturer_name = .error e →
      cp = some p → cv = none →
      get_lecturer_files fs "sample_lecturer" = .ok (dp, dv) →
      (get_or_create_lecturer_files fs lecturer_name cp cv).1 = .ok (p, dv)) ∧
    (∀ e v dp dv, get_lecturer_files fs lecturer_name = .error e →
      cp = none → cv = some v →
      get_lecturer_files fs "sample_lecturer" = .ok (dp, dv) →
      (get_or_create_lecturer_files fs lecturer_name cp cv).1 = .ok (dp, v)) ∧
    (∀ e e2, get_lecturer_files fs lecturer_name = .error e →
      (cp.isSome ∨ cv.isSome) → ¬(cp.isSome ∧ cv.isSome) →
      get_lecturer_files fs "sample_lecturer" = .error e2 →
      (get_or_create_lecturer_files fs lecturer_name cp cv).1 =
        .error "Neither the requested lecturer nor sample_lecturer is available") ∧
    (∀ e, get_lecturer_files fs lecturer_name = .error e → cp = none → cv = none →
      (∃ msg, (get_or_create_lecturer_files fs lecturer_name cp cv).1 = .error msg ∧
        msg ≠ "") ∧
      ∃ u, u ∈ (get_or_create_lecturer_files fs lecturer_name cp cv).2.1 ∧
        u.suggestion?.isSome = true ∧ u.status? = some "failed") := by
  refine ⟨?_, ?_, ?_, ?_, ?_, ?_⟩
  · intro pv h
    simp [get_or_create_lecturer_files, h]
  · intro e p v he hp hv
    subst hp
    subst hv
    simp [get_or_create_lecturer_files, he]
  · intro e p dp dv he hp hv hs
    subst hp
    subst hv
    simp [get_or_create_lecturer_files, he, hs]
  · intro e v dp dv he hp hv hs
    subst hp
    subst hv
    simp [get_or_create_lecturer_files, he, hs]
  · intro e e2 he hsome hnboth hs
    cases cp with
    | some p =>
      cases cv with
      | some v => exact absurd (by simp) hnboth
      | none => simp [get_or_create_lecturer_files, he, hs]
    | none =>
      cases cv with
      | some v => simp [get_or_create_lecturer_files, he, hs]
      | none => simp at hsome
  · intro e he hp hv
    subst hp
    subst hv
    refine ⟨⟨lecturerNotFoundMsg lecturer_name,
      by simp [get_or_create_lecturer_files, he], ?_⟩, ?_⟩
    · exact append_left_ne_empty _ _ (append_left_ne_empty _ _ (by decide))
    · refine ⟨lecturerNotFoundWrite lecturer_name, ?_, rfl, rfl⟩
      simp [get_or_create_lecturer_files, he]

/-- C3 witness: with only the default profile on disk, resolving an
unknown lecturer with a single custom portrait combines it with
`sample_lecturer`'s voice reference. -/
theorem get_or_create_lecturer_files_spec_witness :
    (get_or_create_lecturer_files
      (fun s => ["portraits/sample_lecturer.jpg",
                 "portraits/sample_lecturer_voice.wav"].contains s)
      "alice" (some "uploads/p.png") none).1 =
      .ok ("uploads/p.png", "portraits/sample_lecturer_voice.wav") :=
  (get_or_create_lecturer_files_spec
      (fun s => ["portraits/sample_lecturer.jpg",
                 "portraits/sample_lecturer_voice.wav"].contains s)
      "alice" (some "uploads/p.png") none).2.2.1
    "Portrait not found for lecturer: alice" "uploads/p.png"
    "portraits/sample_lecturer.jpg" "portraits/sample_lecturer_voice.wav"
    (by decide) rfl rfl (by decide)

/-! ## Theorems — job progress/terminality claim -/

/-- Discipline of the text-job speech/video tail. -/
lemma textGenTail_goodShape (cur : Nat) (avail : EngineAvail)
    (engineRes : String → Except String String) (videoRes : Except String Unit)
    (task_id text language : String) (cp cv : Option String) (h : cur ≤ 20) :
    goodShape cur (traceShape
      (textGenTail avail engineRes videoRes task_id text language cp cv)) = true := by
  unfold textGenTail
  rw [goodShape_prog cur 20 _ _ h]
  apply goodShape_onErrWith
  intro _ _
  rw [goodShape_prog 20 60 _ _ (by omega)]
  apply goodShape_onErrWith
  intro _ _
  exact goodShape_completed 60 _ rfl

/-- Discipline of the audio-job speech/video tail. -/
lemma audioSynthTail_goodShape (cur : Nat) (avail : EngineAvail)
    (engineRes : String → Except String String) (videoRes : Except String Unit)
    (task_id translate_to transcribed final_text : String)
    (cp cv : Option String) (h : cur ≤ 50) :
    goodShape cur (traceShape
      (audioSynthTail avail engineRes videoRes task_id translate_to transcribed
        final_text cp cv)) = true := by
  unfold audioSynthTail
  rw [goodShape_prog cur 50 _ _ h]
  apply goodShape_onErrWith
  intro _ _
  rw [goodShape_prog 50 80 _ _ (by omega)]
  apply goodShape_onErrWith
  intro _ _
  exact goodShape_completed 80 _ rfl

/-- Discipline of the audio-job resolution-onwards tail. -/
lemma audioGenTail_goodShape (cur : Nat) (fs : String → Bool) (avail : EngineAvail)
    (engineRes : String → Except String String) (videoRes : Except String Unit)
    (task_id translate_to lecturer_name transcribed final_text : String)
    (cp cv : Option String) (h : cur ≤ 40) :
    goodShape cur (traceShape
      (audioGenTail fs avail engineRes videoRes task_id translate_to lecturer_name
        transcribed final_text cp cv)) = true := by
  unfold audioGenTail
  rw [goodShape_prog cur 40 _ _ h]
  apply resolverSeq_goodShape
  exact audioSynthTail_goodShape 40 avail engineRes videoRes task_id translate_to
    transcribed final_text cp cv (by omega)

/-- Discipline of the custom-image speech/video tail. -/
lemma customGenTail_goodShape (cur : Nat) (avail : EngineAvail)
    (engineRes : String → Except String String) (videoRes : Except String Unit)
    (task_id text translate_to final_text : String)
    (voice_path : Option String) (h : cur ≤ 40) :
    goodShape cur (traceShape
      (customGenTail avail engineRes videoRes task_id text translate_to final_text
        voice_path)) = true := by
  unfold customGenTail
  rw [goodShape_prog cur 40 _ _ h]
  apply goodShape_onErrWith
  intro _ _
  rw [goodShape_prog 40 70 _ _ (by omega)]
  apply goodShape_onErrWith
  intro _ _
  exact goodShape_completed 70 _ rfl

/-- C1 counterexample: a concrete text-kind job (unknown lecturer, no
custom assets) whose write trace both decreases progress (10 → 0 at
the failure transition) and keeps writing after the status first
became `failed` (the resolver's failed write is followed by the outer
handler's), so the claim is false as stated on both counts. -/
theorem job_progress_counterexample :
    progressNonDecreasing 0 (traceShape (JobRun.trace
      (.text (fun _ => false) ⟨true, true, true⟩ (fun _ => Except.error "x")
        (.ok ()) (.ok ()) "t1" "hello" "en" "alice" none none))) = false ∧
    frozenAfterTerminal (traceShape (JobRun.trace
      (.text (fun _ => false) ⟨true, true, true⟩ (fun _ => Except.error "x")
        (.ok ()) (.ok ()) "t1" "hello" "en" "alice" none none))) = false := by
  constructor <;> decide

/-- C1 (amended): for every job of any kind, progress is
non-decreasing across writes while the status stays non-terminal; the
failure transition resets progress to 0; no write follows a
`completed` write; and after the first `failed` write at most one more
write occurs — the outer handler's, which again records `failed` with
progress 0. -/
theorem job_progress_discipline (r : JobRun) :
    goodShape 0 (traceShape r.trace) = true := by
  cases r with
  | text fs avail engineRes componentsInit videoRes task_id txt language
      lecturer_name cp cv =>
    unfold JobRun.trace process_text_generation
    rw [goodShape_start]
    apply goodShape_onErrWith
    intro _ _
    rw [goodShape_prog 0 10 _ _ (by omega)]
    apply resolverSeq_goodShape
    exact textGenTail_goodShape 10 avail engineRes videoRes task_id txt language
      cp cv (by omega)
  | audio fs avail engineRes componentsInit videoRes transcribeRes runModel
      task_id language translate_to lecturer_name cp cv =>
    unfold JobRun.trace process_audio_generation
    rw [goodShape_start]
    apply goodShape_onErrWith
    intro _ _
    rw [goodShape_prog 0 10 _ _ (by omega)]
    apply goodShape_onErrWith
    intro transcribed _
    rw [goodShape_prog 10 30 _ _ (by omega)]
    by_cases hne : language ≠ translate_to
    · rw [if_pos hne]
      by_cases hauto : (language = "auto" || translate_to = "en") = true
      · rw [if_pos hauto]
        exact audioGenTail_goodShape 30 fs avail engineRes videoRes task_id
          translate_to lecturer_name transcribed _ cp cv (by omega)
      · rw [if_neg hauto]
        apply goodShape_onErrWith
        intro tr _
        exact audioGenTail_goodShape 30 fs avail engineRes videoRes task_id
          translate_to lecturer_name transcribed _ cp cv (by omega)
    · rw [if_neg hne]
      exact audioGenTail_goodShape 30 fs avail engineRes videoRes task_id
        translate_to lecturer_name transcribed transcribed cp cv (by omega)
  | customImage avail engineRes componentsInit videoRes runModel task_id txt
      language translate_to voice_path =>
    unfold JobRun.trace process_custom_image_generation
    rw [goodShape_start]
    apply goodShape_onErrWith
    intro _ _
    rw [goodShape_prog 0 10 _ _ (by omega)]
    by_cases hne : language ≠ translate_to
    · rw [if_pos hne]
      rw [goodShape_prog 10 20 _ _ (by omega)]
      apply goodShape_onErrWith
      intro tr _
      exact customGenTail_goodShape 20 avail engineRes videoRes task_id txt
        translate_to _ voice_path (by omega)
    · rw [if_neg hne]
      exact customGenTail_goodShape 10 avail engineRes videoRes task_id txt
        translate_to txt voice_path (by omega)
  | imageAudio fs componentsInit videoRes task_id image_path audio_path
      lecturer_name enhance_face still_mode =>
    unfold JobRun.trace process_image_audio_generation
    rw [goodShape_start]
    apply goodShape_onErrWith
    intro _ _
    rw [goodShape_prog 0 10 _ _ (by omega)]
    by_cases hi : ¬ fs image_path = true
    · rw [if_pos hi]
      exact goodShape_fail_single 10 _
    · rw [if_neg hi]
      by_cases ha : ¬ fs audio_path = true
      · rw [if_pos ha]
        exact goodShape_fail_single 10 _
      · rw [if_neg ha]
        rw [goodShape_prog 10 30 _ _ (by omega)]
        rw [goodShape_prog 30 50 _ _ (by omega)]
        apply goodShape_onErrWith
        intro _ _
        exact goodShape_completed 50 _ rfl

/-! ## Trace analysis: status/error/result shape of the write sequence -/

/-- The status, error (mapped to an is-empty flag), and
result-field-presence data a write supplies. -/
def rEntry (u : JobUpdate) : Option String × Option Bool × Bool × Bool :=
  (u.status?, u.error?.map (fun m => m == ""), u.result_path?.isSome,
    u.result_url?.isSome)

/-- Status/error/result projection of a whole write trace. -/
def resultShape (t : List JobUpdate) : List (Option String × Option Bool × Bool × Bool) :=
  t.map rEntry

/-- The last status-bearing entry of the shape — the status a poller
sees once the trace has been applied. -/
def lastStatusEntry (l : List (Option String × Option Bool × Bool × Bool)) :
    Option (Option String × Option Bool × Bool × Bool) :=
  l.foldl (fun acc e => if e.1.isSome then some e else acc) none

/-- The failure/result discipline: result fields appear only in
`completed` writes, at most one write is a `completed` write, and if
any write records `failed` then no write carries result fields and the
last status-bearing write records `failed` with a non-empty error. -/
def checkC8 (l : List (Option String × Option Bool × Bool × Bool)) : Bool :=
  l.all (fun e => !(e.2.2.1 || e.2.2.2) || decide (e.1 = some "completed")) &&
  decide (l.countP (fun e => decide (e.1 = some "completed")) ≤ 1) &&
  (!(l.any (fun e => decide (e.1 = some "failed"))) ||
    (l.all (fun e => !e.2.2.1 && !e.2.2.2) &&
     (match lastStatusEntry l with
      | some e => decide (e.1 = some "failed") && (e.2.1 == some false)
      | none => false)))

/-- The last status-bearing entry ignores what was accumulated before
it, once the list holds at least one status-bearing entry. -/
lemma lastStatus_foldl_indep :
    ∀ (l : List (Option String × Option Bool × Bool × Bool))
      (init : Option (Option String × Option Bool × Bool × Bool)),
    (∃ x ∈ l, x.1.isSome = true) →
    l.foldl (fun acc e => if e.1.isSome then some e else acc) init =
    l.foldl (fun acc e => if e.1.isSome then some e else acc) none := by
  intro l
  induction l with
  | nil => intro init h; simp at h
  | cons e rest ih =>
    intro init h
    by_cases he : e.1.isSome = true
    · simp [List.foldl_cons, he]
    · simp only [List.foldl_cons, if_neg he]
      apply ih
      rcases h with ⟨x, hx, hxs⟩
      rcases List.mem_cons.mp hx with rfl | hx'
      · exact absurd hxs he
      · exact ⟨x, hx', hxs⟩

/-- A write with non-terminal status and no result fields leaves the
failure/result discipline unchanged. -/
lemma checkC8_cons_plain (u : JobUpdate) (l : List JobUpdate)
    (h1 : u.status? ≠ some "failed") (h2 : u.status? ≠ some "completed")
    (h3 : u.result_path? = none) (h4 : u.result_url? = none) :
    checkC8 (resultShape (u :: l)) = checkC8 (resultShape l) := by
  unfold checkC8 resultShape lastStatusEntry
  simp only [List.map_cons, List.all_cons, List.any_cons, List.countP_cons,
    List.foldl_cons, rEntry, h3, h4, Option.isSome_none, Bool.or_false,
    Bool.not_false, Bool.true_and, Bool.and_true, decide_eq_true_eq, h1, h2,
    decide_False, Bool.false_or, Bool.or_false]
  by_cases hany : (l.map rEntry).any (fun e => decide (e.1 = some "failed")) = true
  · have hex : ∃ x ∈ l.map rEntry, x.1.isSome = true := by
      rcases List.any_eq_true.mp hany with ⟨x, hx, hxf⟩
      refine ⟨x, hx, ?_⟩
      rw [of_decide_eq_true hxf]
      rfl
    rw [lastStatus_foldl_indep _ _ hex]
    simp
  · simp [hany]

/-- A single trailing handler failure write satisfies the discipline
when its error message is non-empty. -/
lemma checkC8_fail_single (e : String) (he : e ≠ "") :
    checkC8 (resultShape [failWrite e]) = true := by
  have hbe : (e == "") = false := beq_eq_false_iff_ne.mpr he
  simp [checkC8, resultShape, rEntry, failWrite, lastStatusEntry, hbe]

/-- A failed write followed by the handler's failure write satisfies
the discipline when the handler's message is non-empty. -/
lemma checkC8_fail_double (u : JobUpdate) (e : String)
    (hu : u.status? = some "failed") (h3 : u.result_path? = none)
    (h4 : u.result_url? = none) (he : e ≠ "") :
    checkC8 (resultShape [u, failWrite e]) = true := by
  have hbe : (e == "") = false := beq_eq_false_iff_ne.mpr he
  simp [checkC8, resultShape, rEntry, failWrite, lastStatusEntry, hu, h3, h4, hbe]

/-- A single trailing completed write satisfies the discipline. -/
lemma checkC8_completed (u : JobUpdate) (hs : u.status? = some "completed") :
    checkC8 (resultShape [u]) = true := by
  simp [checkC8, resultShape, rEntry, lastStatusEntry, hs]

/-- Non-emptiness contract for an abstract fallible stage: any raised
message is non-empty. -/
def ExcOk {α : Type} (x : Except String α) : Prop :=
  ∀ e, x = .error e → e ≠ ""

/-- Non-emptiness contract for the per-engine synthesis oracle. -/
def OracleOk (f : String → Except String String) : Prop :=
  ∀ a e, f a = .error e → e ≠ ""

/-- Non-emptiness contract for the translation-model oracle. -/
def Oracle2Ok (f : String → String → Except String String) : Prop :=
  ∀ a b e, f a b = .error e → e ≠ ""

/-- The `try`/`except` step preserves the discipline when the stage's
error messages are non-empty. -/
lemma checkC8_onErrWith {α : Type} (x : Except String α)
    (k : α → List JobUpdate) (hx : ExcOk x)
    (hk : ∀ a, x = .ok a → checkC8 (resultShape (k a)) = true) :
    checkC8 (resultShape (onErrWith x k)) = true := by
  cases hxx : x with
  | error e =>
    simp only [onErrWith]
    exact checkC8_fail_single e (hx e hxx)
  | ok a =>
    simp only [onErrWith]
    exact hk a hxx

/-- The unsupported-pair error of model selection is non-empty. -/
lemma selectModelKey_error_ne (s t e : String)
    (h : selectModelKey s t = .error e) : e ≠ "" := by
  simp only [selectModelKey] at h
  repeat' split at h
  any_goals exact absurd h (fun hc => Except.noConfusion hc)
  all_goals
    simp only [Except.error.injEq] at h
    subst h
    exact append_left_ne_empty _ _ (append_left_ne_empty _ _
      (append_left_ne_empty _ _ (append_left_ne_empty _ _ (by decide))))

/-- Every error `translate_text` raises is non-empty. -/
lemma translate_text_error_ne (text s t : String)
    (runModel : String → String → Except String String)
    (h2 : Oracle2Ok runModel) (e : String)
    (h : translate_text text s t runModel = .error e) : e ≠ "" := by
  by_cases hb : isBlank text = true
  · simp [translate_text, hb] at h
  · cases hk : selectModelKey s t with
    | error e1 =>
      simp [translate_text, hb, hk] at h
      subst h
      exact selectModelKey_error_ne s t _ hk
    | ok key =>
      cases hr : runModel key text with
      | error e2 =>
        simp [translate_text, hb, hk, hr] at h
        subst h
        exact h2 key text _ hr
      | ok tt =>
        simp [translate_text, hb, hk, hr] at h

/-- Every error the engine attempt loop raises is non-empty, given the
oracle's and the carried error's non-emptiness. -/
lemma attemptEngines_error_ne (avail : EngineAvail) (language : String)
    (engineRes : String → Except String String) (hE : OracleOk engineRes) :
    ∀ (order : List String) (last : Option String) (e : String),
    (∀ m, last = some m → m ≠ "") →
    attemptEngines avail language engineRes order last = .error e → e ≠ "" := by
  intro order
  induction order with
  | nil =>
    intro last e hlast h
    cases last with
    | some m =>
      simp only [attemptEngines, Except.error.injEq] at h
      subst h
      exact hlast _ rfl
    | none =>
      simp only [attemptEngines, Except.error.injEq] at h
      subst h
      exact append_left_ne_empty _ _ (by decide)
  | cons eng rest ih =>
    intro last e hlast h
    simp only [attemptEngines] at h
    by_cases hs : engineSupports avail language eng = true
    · rw [if_pos hs] at h
      cases hr : engineRes eng with
      | ok p => rw [hr] at h; simp at h
      | error m =>
        rw [hr] at h
        refine ih (some m) e ?_ h
        intro m' hm'
        injection hm' with hmm
        subst hmm
        exact hE eng _ hr
    · rw [if_neg hs] at h
      exact ih last e hlast h

/-- Every error `synthesize_speech` raises is non-empty. -/
lemma synthesize_speech_error_ne (avail : EngineAvail)
    (engineRes : String → Except String String)
    (text language : String) (prefer_engine : Option String)
    (hE : OracleOk engineRes) (e : String)
    (h : synthesize_speech avail engineRes text language prefer_engine = .error e) :
    e ≠ "" := by
  unfold synthesize_speech at h
  by_cases hb : isBlank text = true
  · rw [if_pos hb] at h
    simp only [Except.error.injEq] at h
    subst h
    decide
  · rw [if_neg hb] at h
    exact attemptEngines_error_ne avail language engineRes hE _ none e
      (fun m hm => by simp at hm) h

/-- The asset-resolution step preserves the failure/result discipline:
its informational writes are plain, and both of its failure modes end
in failed writes with non-empty errors. -/
lemma resolverSeq_checkC8 (fs : String → Bool) (name : String)
    (cp cv : Option String) (tail : List JobUpdate)
    (htail : checkC8 (resultShape tail) = true) :
    checkC8 (resultShape (resolverSeq fs name cp cv tail)) = true := by
  unfold resolverSeq
  cases hg : get_lecturer_files fs name with
  | ok pv =>
    simp only [get_or_create_lecturer_files, hg, onErrWith, List.nil_append]
    exact htail
  | error e =>
    cases cp with
    | some p =>
      cases cv with
      | some v =>
        simp only [get_or_create_lecturer_files, hg, onErrWith,
          List.cons_append, List.nil_append]
        rw [checkC8_cons_plain _ _ (by simp [createdLecturerWrite])
          (by simp [createdLecturerWrite]) rfl rfl]
        exact htail
      | none =>
        cases hs : get_lecturer_files fs "sample_lecturer" with
        | ok dpv =>
          obtain ⟨dp, dv⟩ := dpv
          simp only [get_or_create_lecturer_files, hg, hs, onErrWith,
            List.cons_append, List.nil_append]
          rw [checkC8_cons_plain _ _ (by simp [sampleFallbackWrite])
            (by simp [sampleFallbackWrite]) rfl rfl]
          exact htail
        | error e2 =>
          simp only [get_or_create_lecturer_files, hg, hs, onErrWith,
            List.nil_append]
          exact checkC8_fail_single _ (by decide)
    | none =>
      cases cv with
      | some v =>
        cases hs : get_lecturer_files fs "sample_lecturer" with
        | ok dpv =>
          obtain ⟨dp, dv⟩ := dpv
          simp only [get_or_create_lecturer_files, hg, hs, onErrWith,
            List.cons_append, List.nil_append]
          rw [checkC8_cons_plain _ _ (by simp [sampleFallbackWrite])
            (by simp [sampleFallbackWrite]) rfl rfl]
          exact htail
        | error e2 =>
          simp only [get_or_create_lecturer_files, hg, hs, onErrWith,
            List.nil_append]
          exact checkC8_fail_single _ (by decide)
      | none =>
        simp only [get_or_create_lecturer_files, hg, onErrWith,
          List.cons_append, List.nil_append]
        exact checkC8_fail_double _ _ rfl rfl rfl
          (append_left_ne_empty _ _ (append_left_ne_empty _ _ (by decide)))

/-! ## Theorems — job failure/result claim -/

/-- Failure/result discipline of the text-job speech/video tail. -/
lemma textGenTail_checkC8 (avail : EngineAvail)
    (engineRes : String → Except String String) (videoRes : Except String Unit)
    (task_id text language : String) (cp cv : Option String)
    (hE : OracleOk engineRes) (hV : ExcOk videoRes) :
    checkC8 (resultShape
      (textGenTail avail engineRes videoRes task_id text language cp cv)) = true := by
  unfold textGenTail
  rw [checkC8_cons_plain _ _ (by simp [progressWrite]) (by simp [progressWrite]) rfl rfl]
  apply checkC8_onErrWith _ _
    (fun e he => synthesize_speech_error_ne avail engineRes text language none hE e he)
  intro _ _
  rw [checkC8_cons_plain _ _ (by simp [progressWrite]) (by simp [progressWrite]) rfl rfl]
  apply checkC8_onErrWith _ _ hV
  intro _ _
  exact checkC8_completed _ rfl

/-- Failure/result discipline of the audio-job speech/video tail. -/
lemma audioSynthTail_checkC8 (avail : EngineAvail)
    (engineRes : String → Except String String) (videoRes : Except String Unit)
    (task_id translate_to transcribed final_text : String) (cp cv : Option String)
    (hE : OracleOk engineRes) (hV : ExcOk videoRes) :
    checkC8 (resultShape
      (audioSynthTail avail engineRes videoRes task_id translate_to transcribed
        final_text cp cv)) = true := by
  unfold audioSynthTail
  rw [checkC8_cons_plain _ _ (by simp [progressWrite]) (by simp [progressWrite]) rfl rfl]
  apply checkC8_onErrWith _ _
    (fun e he => synthesize_speech_error_ne avail engineRes final_text translate_to
      none hE e he)
  intro _ _
  rw [checkC8_cons_plain _ _ (by simp [progressWrite]) (by simp [progressWrite]) rfl rfl]
  apply checkC8_onErrWith _ _ hV
  intro _ _
  exact checkC8_completed _ rfl

/-- Failure/result discipline of the audio-job resolution-onwards
tail. -/
lemma audioGenTail_checkC8 (fs : String → Bool) (avail : EngineAvail)
    (engineRes : String → Except String String) (videoRes : Except String Unit)
    (task_id translate_to lecturer_name transcribed final_text : String)
    (cp cv : Option String) (hE : OracleOk engineRes) (hV : ExcOk videoRes) :
    checkC8 (resultShape
      (audioGenTail fs avail engineRes videoRes task_id translate_to lecturer_name
        transcribed final_text cp cv)) = true := by
  unfold audioGenTail
  rw [checkC8_cons_plain _ _ (by simp [progressWrite]) (by simp [progressWrite]) rfl rfl]
  apply resolverSeq_checkC8
  exact audioSynthTail_checkC8 avail engineRes videoRes task_id translate_to
    transcribed final_text cp cv hE hV

/-- Failure/result discipline of the custom-image speech/video tail. -/
lemma customGenTail_checkC8 (avail : EngineAvail)
    (engineRes : String → Except String String) (videoRes : Except String Unit)
    (task_id text translate_to final_text : String) (voice_path : Option String)
    (hE : OracleOk engineRes) (hV : ExcOk videoRes) :
    checkC8 (resultShape
      (customGenTail avail engineRes videoRes task_id text translate_to final_text
        voice_path)) = true := by
  unfold customGenTail
  rw [checkC8_cons_plain _ _ (by simp [progressWrite]) (by simp [progressWrite]) rfl rfl]
  apply checkC8_onErrWith _ _
    (fun e he => synthesize_speech_error_ne avail engineRes final_text translate_to
      none hE e he)
  intro _ _
  rw [checkC8_cons_plain _ _ (by simp [progressWrite]) (by simp [progressWrite]) rfl rfl]
  apply checkC8_onErrWith _ _ hV
  intro _ _
  exact checkC8_completed _ rfl

/-- The non-emptiness contracts a job run's stage oracles must
satisfy: any exception raised by an abstracted external stage carries
a non-empty message. -/
def JobRun.oraclesOk : JobRun → Prop
  | .text _ _ engineRes componentsInit videoRes _ _ _ _ _ _ =>
      ExcOk componentsInit ∧ ExcOk videoRes ∧ OracleOk engineRes
  | .audio _ _ engineRes componentsInit videoRes transcribeRes runModel
      _ _ _ _ _ _ =>
      ExcOk componentsInit ∧ ExcOk videoRes ∧ OracleOk engineRes ∧
        ExcOk transcribeRes ∧ Oracle2Ok runModel
  | .customImage _ engineRes componentsInit videoRes runModel _ _ _ _ _ =>
      ExcOk componentsInit ∧ ExcOk videoRes ∧ OracleOk engineRes ∧
        Oracle2Ok runModel
  | .imageAudio _ componentsInit videoRes _ _ _ _ _ _ =>
      ExcOk componentsInit ∧ ExcOk videoRes

/-- C8: for every job kind, result fields (`result_path`/`result_url`)
are written only by the single completed-transition write; and when
any stage raises (so some write records `failed`), no write ever
carries result fields and the job's final status-bearing write records
`failed` with a non-empty error message. -/
theorem job_failure_discipline (r : JobRun) (h : r.oraclesOk) :
    checkC8 (resultShape r.trace) = true := by
  cases r with
  | text fs avail engineRes componentsInit videoRes task_id txt language
      lecturer_name cp cv =>
    obtain ⟨hci, hv, he⟩ := h
    unfold JobRun.trace process_text_generation
    rw [checkC8_cons_plain _ _ (by simp [startWrite]) (by simp [startWrite]) rfl rfl]
    apply checkC8_onErrWith _ _ hci
    intro _ _
    rw [checkC8_cons_plain _ _ (by simp [progressWrite]) (by simp [progressWrite]) rfl rfl]
    apply resolverSeq_checkC8
    exact textGenTail_checkC8 avail engineRes videoRes task_id txt language cp cv he hv
  | audio fs avail engineRes componentsInit videoRes transcribeRes runModel
      task_id language translate_to lecturer_name cp cv =>
    obtain ⟨hci, hv, he, htr, hrm⟩ := h
    unfold JobRun.trace process_audio_generation
    rw [checkC8_cons_plain _ _ (by simp [startWrite]) (by simp [startWrite]) rfl rfl]
    apply checkC8_onErrWith _ _ hci
    intro _ _
    rw [checkC8_cons_plain _ _ (by simp [progressWrite]) (by simp [progressWrite]) rfl rfl]
    apply checkC8_onErrWith _ _ htr
    intro transcribed _
    rw [checkC8_cons_plain _ _ (by simp [progressWrite]) (by simp [progressWrite]) rfl rfl]
    by_cases hne : language ≠ translate_to
    · rw [if_pos hne]
      by_cases hauto : (language = "auto" || translate_to = "en") = true
      · rw [if_pos hauto]
        exact audioGenTail_checkC8 fs avail engineRes videoRes task_id translate_to
          lecturer_name transcribed _ cp cv he hv
      · rw [if_neg hauto]
        apply checkC8_onErrWith _ _
          (fun e hte => translate_text_error_ne transcribed language translate_to
            runModel hrm e hte)
        intro tr _
        exact audioGenTail_checkC8 fs avail engineRes videoRes task_id translate_to
          lecturer_name transcribed _ cp cv he hv
    · rw [if_neg hne]
      exact audioGenTail_checkC8 fs avail engineRes videoRes task_id translate_to
        lecturer_name transcribed transcribed cp cv he hv
  | customImage avail engineRes componentsInit videoRes runModel task_id txt
      language translate_to voice_path =>
    obtain ⟨hci, hv, he, hrm⟩ := h
    unfold JobRun.trace process_custom_image_generation
    rw [checkC8_cons_plain _ _ (by simp [startWrite]) (by simp [startWrite]) rfl rfl]
    apply checkC8_onErrWith _ _ hci
    intro _ _
    rw [checkC8_cons_plain _ _ (by simp [progressWrite]) (by simp [progressWrite]) rfl rfl]
    by_cases hne : language ≠ translate_to
    · rw [if_pos hne]
      rw [checkC8_cons_plain _ _ (by simp [progressWrite]) (by simp [progressWrite]) rfl rfl]
      apply checkC8_onErrWith _ _
        (fun e hte => translate_text_error_ne txt language translate_to runModel
          hrm e hte)
      intro tr _
      exact customGenTail_checkC8 avail engineRes videoRes task_id txt translate_to
        _ voice_path he hv
    · rw [if_neg hne]
      exact customGenTail_checkC8 avail engineRes videoRes task_id txt translate_to
        txt voice_path he hv
  | imageAudio fs componentsInit videoRes task_id image_path audio_path
      lecturer_name enhance_face still_mode =>
    obtain ⟨hci, hv⟩ := h
    unfold JobRun.trace process_image_audio_generation
    rw [checkC8_cons_plain _ _ (by simp [startWrite]) (by simp [startWrite]) rfl rfl]
    apply checkC8_onErrWith _ _ hci
    intro _ _
    rw [checkC8_cons_plain _ _ (by simp [progressWrite]) (by simp [progressWrite]) rfl rfl]
    by_cases hi : ¬ fs image_path = true
    · rw [if_pos hi]
      exact checkC8_fail_single _ (append_left_ne_empty _ _ (by decide))
    · rw [if_neg hi]
      by_cases ha : ¬ fs audio_path = true
      · rw [if_pos ha]
        exact checkC8_fail_single _ (append_left_ne_empty _ _ (by decide))
      · rw [if_neg ha]
        rw [checkC8_cons_plain _ _ (by simp [progressWrite]) (by simp [progressWrite]) rfl rfl]
        rw [checkC8_cons_plain _ _ (by simp [progressWrite]) (by simp [progressWrite]) rfl rfl]
        apply checkC8_onErrWith _ _ hv
        intro _ _
        exact checkC8_completed _ rfl

/-- C8 witness: a concrete image+audio job whose image file is missing
— the trace keeps the discipline, ending failed with no result
fields. -/
theorem job_failure_discipline_witness :
    checkC8 (resultShape (JobRun.trace
      (.imageAudio (fun _ => false) (.ok ()) (.ok ()) "t2" "img.png" "aud.wav"
        "lect" true true))) = true :=
  job_failure_discipline
    (.imageAudio (fun _ => false) (.ok ()) (.ok ()) "t2" "img.png" "aud.wav"
      "lect" true true)
    ⟨fun _ hc => Except.noConfusion hc, fun _ hc => Except.noConfusion hc⟩

end AvatarLecturer
